import Mathlib

/-!
Verification of `prediction.py`: a script that loads an MNIST classifier
and a CSV-backed evaluation dataset, and exposes a `predict()` function
that draws a random example index, runs the model on the selected image,
and returns a result record.

Numeric cell values (pixel intensities, labels, model probabilities) are
embedded as `ℚ`.  A pandas `DataFrame` read with `header=None` is a list
of rows, each row a list of cells (column 0 first).  `numpy` `reshape`
calls are data-preserving, so images stay flat lists.  The hidden global
`numpy` RNG is passed explicitly as an `RngState`.
-/

set_option autoImplicit false

namespace Prediction

/-- A Python runtime value appearing in the result record returned by
`predict()`: the `matplotlib` image handle produced by `plt.imshow`
(carrying the displayed pixel grid), a string, or an integer. -/
inductive PyValue where
  | image (pixels : List ℚ)
  | str (s : String)
  | int (n : ℤ)
deriving DecidableEq

/-- State of the global `numpy` random generator: an abstract stream of raw
draws and the current position in it. -/
structure RngState where
  stream : Nat → Nat
  pos : Nat

/-- Modelled from numpy semantics: `np.random.randint(low, high)` returns an
integer drawn from the half-open range `[low, high)`, determined by the
current RNG state. -/
def npRandomRandint (low high : Nat) (rng : RngState) : Nat :=
  low + rng.stream rng.pos % (high - low)

/-- Line 34 of `prediction.py`: `selected_element = np.random.randint(0, 9999)`. -/
def selectedElement (rng : RngState) : Nat :=
  npRandomRandint 0 9999 rng

/-- Modelled from numpy semantics: `ndarray.argmax()` returns the index of
the first occurrence of the maximum value (`0` on an empty array is a
placeholder; numpy raises there, but the model output is never empty). -/
def argmax : List ℚ → Nat
  | [] => 0
  | x :: xs => if ∀ y ∈ xs, y ≤ x then 0 else argmax xs + 1

/-- Lines 20-22 / 26-28 of `prediction.py`:
`df.loc[:, 1:].values` (drop column 0 of every row), reshape to
`(n, 28, 28, 1)` (data-preserving), then divide by `255.0`. -/
def loadFeatures (df : List (List ℚ)) : List (List ℚ) :=
  (df.map List.tail).map (List.map (fun v => v / 255))

/-- Lines 24 / 29 of `prediction.py`: `df[0].values` (column 0 of every row). -/
def loadLabels (df : List (List ℚ)) : List ℚ :=
  df.map (fun row => row.headD 0)

/-- Line 43 of `prediction.py`:
`str(model.predict(features.reshape((1,28,28,1)))[0].argmax())`.
The model is applied to the single image (a batch of one followed by `[0]`),
and the argmax index is rendered as a decimal string.  The model itself is
an opaque loaded artifact (`mnist-model.h5`), so it is a parameter. -/
def singlePredictedLabel (model : List ℚ → List ℚ) (features : List ℚ) : String :=
  toString (argmax (model features))

/-- Lines 32-45 of `prediction.py`, the `predict` function.  It takes no
caller-supplied index: `selected_element` comes from the RNG.  Out-of-range
numpy indexing raises `IndexError`, embedded as the `Except` error case.
`label` and `single_predicted_label` are computed but, as in the source,
do not appear in the returned record, which is `{'prediction': selected_image}`. -/
def predict (model : List ℚ → List ℚ) (test_features : List (List ℚ))
    (test_labels : List ℚ) (rng : RngState) :
    Except String (List (String × PyValue)) :=
  let selected_element := selectedElement rng
  match test_features[selected_element]? with
  | none => .error "IndexError"
  | some features =>
    match test_labels[selected_element]? with
    | none => .error "IndexError"
    | some label =>
      let selected_image := PyValue.image features
      let single_predicted_label := singlePredictedLabel model features
      let _ := label
      let _ := single_predicted_label
      .ok [("prediction", selected_image)]

/-- Lines 17-47 of `prediction.py` as a whole: load both splits, then run
`predict` once.  The training split is loaded and normalized exactly as the
test split is, and (as in the source) is not consulted by `predict`. -/
def moduleRun (model : List ℚ → List ℚ) (train_df test_df : List (List ℚ))
    (rng : RngState) : Except String (List (String × PyValue)) :=
  let train_features := loadFeatures train_df
  let train_labels := loadLabels train_df
  let test_features := loadFeatures test_df
  let test_labels := loadLabels test_df
  let _ := train_features
  let _ := train_labels
  predict model test_features test_labels rng

/-- A concrete stand-in model used only to instantiate witnesses: it returns
a fixed 10-entry probability vector whose maximum is at index 7. -/
def demoModel : List ℚ → List ℚ :=
  fun _ => [0, 0, 0, 0, 0, 0, 0, 1, 0, 0]

/-! ### Generic facts about `argmax` -/

theorem argmax_lt_length (l : List ℚ) (h : l ≠ []) : argmax l < l.length := by
  induction l with
  | nil => exact absurd rfl h
  | cons x xs ih =>
    by_cases hall : ∀ y ∈ xs, y ≤ x
    · simp [argmax, if_pos hall]
    · have hxs : xs ≠ [] := by
        intro he
        exact hall (by simp [he])
      have := ih hxs
      simp only [argmax, if_neg hall, List.length_cons]
      omega

theorem argmax_is_max (l : List ℚ) :
    ∀ j, j < l.length → l.getD j 0 ≤ l.getD (argmax l) 0 := by
  induction l with
  | nil => intro j hj; simp at hj
  | cons x xs ih =>
    intro j hj
    by_cases hall : ∀ y ∈ xs, y ≤ x
    · simp only [argmax, if_pos hall, List.getD_cons_zero]
      cases j with
      | zero => simp
      | succ j' =>
        simp only [List.getD_cons_succ]
        have hj' : j' < xs.length := by simpa using hj
        rw [List.getD_eq_get _ _ hj']
        exact hall _ (List.get_mem _ _ _)
    · push_neg at hall
      obtain ⟨y, hy, hxy⟩ := hall
      have hmem := List.mem_iff_get.mp hy
      obtain ⟨⟨n, hn⟩, hget⟩ := hmem
      have hy_le : y ≤ xs.getD (argmax xs) 0 := by
        have := ih n hn
        rwa [List.getD_eq_get _ _ hn, hget] at this
      have hifneg : ¬ ∀ y ∈ xs, y ≤ x := by
        push_neg
        exact ⟨y, hy, hxy⟩
      simp only [argmax, if_neg hifneg, List.getD_cons_succ]
      cases j with
      | zero =>
        simp only [List.getD_cons_zero]
        exact le_of_lt (lt_of_lt_of_le hxy hy_le)
      | succ j' =>
        simp only [List.getD_cons_succ]
        have hj' : j' < xs.length := by simpa using hj
        exact ih j' hj'

theorem argmax_first_max (l : List ℚ) :
    ∀ j, j < argmax l → l.getD j 0 < l.getD (argmax l) 0 := by
  induction l with
  | nil => intro j hj; simp [argmax] at hj
  | cons x xs ih =>
    intro j hj
    by_cases hall : ∀ y ∈ xs, y ≤ x
    · simp [argmax, if_pos hall] at hj
    · have hlt : ∃ y ∈ xs, x < y := by
        push_neg at hall
        obtain ⟨y, hy, hxy⟩ := hall
        exact ⟨y, hy, hxy⟩
      simp only [argmax, if_neg hall] at hj ⊢
      cases j with
      | zero =>
        simp only [List.getD_cons_zero, List.getD_cons_succ]
        obtain ⟨y, hy, hxy⟩ := hlt
        obtain ⟨⟨n, hn⟩, hget⟩ := List.mem_iff_get.mp hy
        have hy_le : y ≤ xs.getD (argmax xs) 0 := by
          have := argmax_is_max xs n hn
          rwa [List.getD_eq_get _ _ hn, hget] at this
        exact lt_of_lt_of_le hxy hy_le
      | succ j' =>
        simp only [List.getD_cons_succ]
        exact ih j' (by omega)

/-! ### Claims -/

/-- Claim C1 (code bug exhibit): the spec and the source's own doc comment say
`predict()` returns the actual label and the predicted label, but on a
successful invocation the returned record holds exactly one key,
`"prediction"`, bound to the rendered image; it is not the two-field
`{actual_label, predicted_label}` record.  The dataset here is a loaded
one-example evaluation split: one image `[0]` with label `7`. -/
theorem claim_C1_exhibit :
    predict demoModel [[0]] [7] ⟨fun _ => 0, 0⟩
      = .ok [("prediction", PyValue.image [0])]
    ∧ [("prediction", PyValue.image [(0 : ℚ)])].map Prod.fst
        ≠ ["actual_label", "predicted_label"] := by
  constructor
  · rfl
  · decide

/-- Claim C2 (code bug exhibit): on a dataset with exactly one example whose
label is 7, `predict()` does not return `actual_label = "7"`: if the drawn
index is 1 (or anything ≥ 1) it raises `IndexError` because the draw range
is the fixed `[0, 9999)`, and if the drawn index is 0 it returns
`{'prediction': <image>}`, a record with no `actual_label` or
`predicted_label` field at all. -/
theorem claim_C2_exhibit :
    predict demoModel [[0]] [7] ⟨fun _ => 1, 0⟩ = .error "IndexError"
    ∧ predict demoModel [[0]] [7] ⟨fun _ => 0, 0⟩
      = .ok [("prediction", PyValue.image [0])] := by
  constructor
  · rfl
  · rfl

/-- Claim C3 (counterexample): the index is not drawn from
`[0, dataset_size − 1)`.  For a dataset with a single example
(`dataset_size = 1`, so the claimed range is empty) there is an RNG state
whose draw is 5, which `predict` then uses as the index, raising
`IndexError`. -/
theorem claim_C3_counterexample :
    selectedElement ⟨fun _ => 5, 0⟩ = 5
    ∧ ¬ (selectedElement ⟨fun _ => 5, 0⟩ < ([[0]] : List (List ℚ)).length - 1)
    ∧ predict demoModel [[0]] [7] ⟨fun _ => 5, 0⟩ = .error "IndexError" := by
  refine ⟨rfl, by decide, rfl⟩

/-- Claim C3 (amended): the index is drawn internally (the caller cannot
supply one) from the fixed half-open range `[0, 9999)`, independent of the
dataset size. -/
theorem claim_C3_amended (rng : RngState) : selectedElement rng < 9999 := by
  simp only [selectedElement, npRandomRandint, Nat.zero_add]
  omega

/-- Claim C4: the predicted label computed inside `predict()` is the decimal
rendering of the argmax of the model's probability vector: an index that is
in range, at which the vector attains its maximum, and such that every
earlier index holds a strictly smaller value (ties broken by lowest index). -/
theorem claim_C4 (model : List ℚ → List ℚ) (features : List ℚ)
    (h : model features ≠ []) :
    singlePredictedLabel model features = toString (argmax (model features))
    ∧ argmax (model features) < (model features).length
    ∧ (∀ j, j < (model features).length →
        (model features).getD j 0 ≤ (model features).getD (argmax (model features)) 0)
    ∧ (∀ j, j < argmax (model features) →
        (model features).getD j 0 < (model features).getD (argmax (model features)) 0) :=
  ⟨rfl, argmax_lt_length _ h, argmax_is_max _, argmax_first_max _⟩

/-- Claim C4 witness at the concrete demo model and a concrete image. -/
theorem claim_C4_witness :
    demoModel [0] ≠ []
    ∧ (singlePredictedLabel demoModel [0] = toString (argmax (demoModel [0]))
       ∧ argmax (demoModel [0]) < (demoModel [0]).length
       ∧ (∀ j, j < (demoModel [0]).length →
           (demoModel [0]).getD j 0 ≤ (demoModel [0]).getD (argmax (demoModel [0])) 0)
       ∧ (∀ j, j < argmax (demoModel [0]) →
           (demoModel [0]).getD j 0 < (demoModel [0]).getD (argmax (demoModel [0])) 0)) :=
  ⟨by decide, claim_C4 demoModel [0] (by decide)⟩

/-- Claim C5: for every valid index `i` into the evaluation features, the
predicted label computed for example `i` is (the decimal string of) an
integer class identifier in `[0, 9]`, given that the model emits a
probability vector over 10 classes as the spec states. -/
theorem claim_C5 (model : List ℚ → List ℚ) (test_features : List (List ℚ)) (i : Nat)
    (hi : i < test_features.length)
    (hm : (model (test_features.getD i [])).length = 10) :
    ∃ k : Nat, k ≤ 9
      ∧ singlePredictedLabel model (test_features.getD i []) = toString k := by
  refine ⟨argmax (model (test_features.getD i [])), ?_, rfl⟩
  have hne : model (test_features.getD i []) ≠ [] := by
    intro he
    rw [he] at hm
    simp at hm
  have := argmax_lt_length _ hne
  omega

/-- Claim C5 witness at a concrete one-example dataset and the demo model. -/
theorem claim_C5_witness :
    0 < ([[0]] : List (List ℚ)).length
    ∧ (demoModel (([[0]] : List (List ℚ)).getD 0 [])).length = 10
    ∧ ∃ k : Nat, k ≤ 9
        ∧ singlePredictedLabel demoModel (([[0]] : List (List ℚ)).getD 0 []) = toString k :=
  ⟨by decide, by decide, claim_C5 demoModel [[0]] 0 (by decide) (by decide)⟩

/-- Claim C6: determinism under a fixed seed.  Two runs of `predict()` from
equal RNG states draw the same index and produce the same result, for any
fixed model and dataset. -/
theorem claim_C6 (model : List ℚ → List ℚ) (test_features : List (List ℚ))
    (test_labels : List ℚ) (s₁ s₂ : RngState) (h : s₁ = s₂) :
    selectedElement s₁ = selectedElement s₂
    ∧ predict model test_features test_labels s₁
      = predict model test_features test_labels s₂ := by
  subst h
  exact ⟨rfl, rfl⟩

/-- Claim C6 witness at a concrete seed, model and dataset. -/
theorem claim_C6_witness :
    (⟨fun _ => 0, 0⟩ : RngState) = ⟨fun _ => 0, 0⟩
    ∧ (selectedElement ⟨fun _ => 0, 0⟩ = selectedElement ⟨fun _ => 0, 0⟩
       ∧ predict demoModel [[0]] [7] ⟨fun _ => 0, 0⟩
         = predict demoModel [[0]] [7] ⟨fun _ => 0, 0⟩) :=
  ⟨rfl, claim_C6 demoModel [[0]] [7] ⟨fun _ => 0, 0⟩ ⟨fun _ => 0, 0⟩ rfl⟩

/-- Claim C7 (counterexample): `predict()` can fail with `IndexError` on a
non-empty dataset, so "Index error iff the dataset is empty" is false: a
one-example dataset with an RNG state drawing 3 raises `IndexError`. -/
theorem claim_C7_counterexample :
    ([[0]] : List (List ℚ)) ≠ []
    ∧ predict demoModel [[0]] [7] ⟨fun _ => 3, 0⟩ = .error "IndexError" := by
  refine ⟨by decide, rfl⟩

/-- Claim C7 (amended): `predict()` fails with an Index error iff the drawn
index is out of range for the dataset (the draw comes from the fixed range
`[0, 9999)`, so an empty dataset always fails, but smaller non-empty
datasets can fail too); otherwise it completes in a single shot. -/
theorem claim_C7_amended (model : List ℚ → List ℚ) (test_features : List (List ℚ))
    (test_labels : List ℚ) (rng : RngState)
    (h : test_features.length = test_labels.length) :
    ((∃ e, predict model test_features test_labels rng = .error e)
      ↔ test_features.length ≤ selectedElement rng)
    ∧ (test_features = []
        → ∃ e, predict model test_features test_labels rng = .error e) := by
  have main : (∃ e, predict model test_features test_labels rng = .error e)
      ↔ test_features.length ≤ selectedElement rng := by
    rcases Nat.lt_or_ge (selectedElement rng) test_features.length with hlt | hge
    · have hlt2 : selectedElement rng < test_labels.length := by omega
      have h1 := List.getElem?_eq_getElem hlt
      have h2 := List.getElem?_eq_getElem hlt2
      simp only [predict, h1, h2]
      constructor
      · rintro ⟨e, he⟩
        exact absurd he (by simp)
      · intro hle
        omega
    · have h1 : test_features[selectedElement rng]? = none :=
        List.getElem?_eq_none hge
      simp only [predict, h1]
      exact ⟨fun _ => hge, fun _ => ⟨"IndexError", rfl⟩⟩
  refine ⟨main, fun he => main.mpr ?_⟩
  simp [he]

/-- Claim C7 (amended) witness at a concrete dataset, seed and model. -/
theorem claim_C7_amended_witness :
    ([[0]] : List (List ℚ)).length = ([7] : List ℚ).length
    ∧ (((∃ e, predict demoModel [[0]] [7] ⟨fun _ => 3, 0⟩ = .error e)
        ↔ ([[0]] : List (List ℚ)).length ≤ selectedElement ⟨fun _ => 3, 0⟩)
       ∧ (([[0]] : List (List ℚ)) = []
           → ∃ e, predict demoModel [[0]] [7] ⟨fun _ => 3, 0⟩ = .error e)) :=
  ⟨by decide, claim_C7_amended demoModel [[0]] [7] ⟨fun _ => 3, 0⟩ (by decide)⟩

/-- Claim C8: after loading, each split has as many feature images as labels,
and `predict` (which never modifies the loaded arrays) preserves this. -/
theorem claim_C8 (train_df test_df : List (List ℚ)) :
    (loadFeatures train_df).length = (loadLabels train_df).length
    ∧ (loadFeatures test_df).length = (loadLabels test_df).length := by
  simp [loadFeatures, loadLabels]

/-- Claim C9: the draw range is the fixed `[0, 9998]`, so for every non-empty
evaluation dataset with fewer than 9999 examples there is an RNG state whose
draw is in range for the generator yet out of bounds for the dataset, and
`predict()` raises `IndexError` there even though the dataset is not empty. -/
theorem claim_C9 (model : List ℚ → List ℚ) (test_features : List (List ℚ))
    (test_labels : List ℚ)
    (h0 : test_features ≠ []) (h1 : test_features.length < 9999) :
    ∃ rng : RngState, selectedElement rng ≤ 9998
      ∧ test_features.length ≤ selectedElement rng
      ∧ ∃ e, predict model test_features test_labels rng = .error e := by
  refine ⟨⟨fun _ => test_features.length, 0⟩, ?_⟩
  have hsel : selectedElement ⟨fun _ => test_features.length, 0⟩
      = test_features.length := by
    simp only [selectedElement, npRandomRandint, Nat.zero_add]
    omega
  have hnone : test_features[selectedElement ⟨fun _ => test_features.length, 0⟩]? = none := by
    rw [hsel]
    exact List.getElem?_eq_none (le_refl _)
  refine ⟨by omega, by omega, "IndexError", ?_⟩
  simp only [predict, hnone]

/-- Claim C9 witness at a concrete one-example dataset and the demo model. -/
theorem claim_C9_witness :
    ([[0]] : List (List ℚ)) ≠ []
    ∧ ([[0]] : List (List ℚ)).length < 9999
    ∧ ∃ rng : RngState, selectedElement rng ≤ 9998
        ∧ ([[0]] : List (List ℚ)).length ≤ selectedElement rng
        ∧ ∃ e, predict demoModel [[0]] [7] rng = .error e :=
  ⟨by decide, by decide, claim_C9 demoModel [[0]] [7] (by decide) (by decide)⟩

/-- Claim C10: the result of running the module is independent of the
training split: for any two training datasets and the same model, test split
and RNG state, the returned value is identical, because the training data is
loaded and normalized but never read by `predict`. -/
theorem claim_C10 (model : List ℚ → List ℚ)
    (train_df₁ train_df₂ test_df : List (List ℚ)) (rng : RngState) :
    moduleRun model train_df₁ test_df rng = moduleRun model train_df₂ test_df rng :=
  rfl

end Prediction
